/-
Verification of the Parkezy 2.0 backend's booking-lifecycle, dispute and
geo-proximity components against their natural-language specification.

The Lean definitions below are a shallow embedding of the Python source:

* `backend/bookings/models.py`      — `BookingSession`, `DisputeReport`
* `backend/bookings/serializers.py` — create / update serializers
* `backend/bookings/views.py`       — `start`, `end`, `cancel`, `resolve`
* `backend/parking/models.py`       — `ParkingSpot`
* `backend/parking/views.py`        — `calculate_distance`, `nearby`,
                                      `toggle_occupancy`

Conventions: instants and money are rationals (timestamps are in seconds,
money in currency units); geographic coordinates and distances are reals,
because `calculate_distance` computes with transcendental functions.
Each Django REST endpoint that mutates one row is modelled as a pure
function from the current row (plus request data and the current time) to
the pair of (row stored after the call, HTTP response).  A response is
either `ok` carrying the serialized row, `err` carrying the error
message string and the HTTP status code, or `crash` carrying an unhandled
Python exception — the framework turns that into an HTTP 500 and the
handler's `save()` is never reached, so the stored row is unchanged.
-/
import Mathlib

/-! ## Booking lifecycle data model (`bookings/models.py`) -/

/-- The `STATUS_CHOICES` of `BookingSession`. -/
inductive BookingStatus where
  | pending
  | confirmed
  | active
  | completed
  | cancelled
  | disputed
deriving DecidableEq, Repr

/-- Database string stored for each status choice. -/
def BookingStatus.db_value : BookingStatus → String
  | .pending => "pending"
  | .confirmed => "confirmed"
  | .active => "active"
  | .completed => "completed"
  | .cancelled => "cancelled"
  | .disputed => "disputed"

/-- The `BookingSession` row.  Times are rational timestamps in seconds,
`duration` is in hours, money fields are in currency units. -/
structure BookingSession where
  id : Nat
  user : Nat
  spot_id : Nat
  spot_type : String
  booking_time : ℚ
  scheduled_start_time : ℚ
  actual_start_time : Option ℚ
  scheduled_end_time : ℚ
  actual_end_time : Option ℚ
  duration : ℚ
  total_cost : ℚ
  overstay_fee : Option ℚ
  status : BookingStatus
  access_code : Option String
deriving DecidableEq, Repr

/-- Outcome of one endpoint call: `ok` carries the serializer output
(the saved row); `err` carries the error message and HTTP status code;
`crash` carries an unhandled Python exception — reported as HTTP 500,
with the handler's `save()` never reached. -/
inductive ApiResp (α : Type) where
  | ok (a : α)
  | err (msg : String) (code : Nat)
  | crash (exc : String)
deriving DecidableEq, Repr

/-! ## Booking serializers (`bookings/serializers.py`) -/

/-- Payload of a booking-creation request.  The serializer's `fields` list
is `spot_id, spot_type, scheduled_start_time, scheduled_end_time, duration,
total_cost, access_code`; a `status` key sent by the client is not among the
declared fields, so it is carried here only to show it is ignored. -/
structure BookingCreateRequest where
  spot_id : Nat
  spot_type : String
  scheduled_start_time : ℚ
  scheduled_end_time : ℚ
  duration : ℚ
  total_cost : ℚ
  access_code : Option String
  status : String
deriving DecidableEq, Repr

/-- The `BookingSessionCreateSerializer.create` method: copies the declared
fields, injects the request user, and forces `status = 'confirmed'`.  The
fields the serializer does not touch keep the model defaults (`null` for
the actual times and the overstay fee); `booking_time` is auto-set to now. -/
def create (req : BookingCreateRequest) (user : Nat) (now : ℚ) (id : Nat) :
    BookingSession :=
  { id := id
    user := user
    spot_id := req.spot_id
    spot_type := req.spot_type
    booking_time := now
    scheduled_start_time := req.scheduled_start_time
    actual_start_time := none
    scheduled_end_time := req.scheduled_end_time
    actual_end_time := none
    duration := req.duration
    total_cost := req.total_cost
    overstay_fee := none
    status := BookingStatus.confirmed
    access_code := req.access_code }

/-- Payload of a (partial) update request.  The
`BookingSessionUpdateSerializer` declares exactly the fields
`actual_start_time, actual_end_time, status, overstay_fee, total_cost`;
an omitted field is `none`, a present field carries the new value
(itself an `Option` for the nullable columns). -/
structure BookingUpdateRequest where
  actual_start_time : Option (Option ℚ) := none
  actual_end_time : Option (Option ℚ) := none
  status : Option BookingStatus := none
  overstay_fee : Option (Option ℚ) := none
  total_cost : Option ℚ := none
deriving DecidableEq, Repr

/-- The generic `update`/`partial_update` endpoint of
`BookingSessionViewSet`: every field present in the request overwrites the
stored value, with no state-machine guard. -/
def update (booking : BookingSession) (req : BookingUpdateRequest) :
    BookingSession :=
  { booking with
    actual_start_time := req.actual_start_time.getD booking.actual_start_time
    actual_end_time := req.actual_end_time.getD booking.actual_end_time
    status := req.status.getD booking.status
    overstay_fee := req.overstay_fee.getD booking.overstay_fee
    total_cost := req.total_cost.getD booking.total_cost }

/-! ## Booking lifecycle actions (`bookings/views.py`) -/

/-- `BookingSessionViewSet.start`. -/
def start (booking : BookingSession) (now : ℚ) :
    BookingSession × ApiResp BookingSession :=
  if booking.status ≠ BookingStatus.confirmed then
    (booking, .err "Only confirmed bookings can be started" 400)
  else
    let b := { booking with
                actual_start_time := some now
                status := BookingStatus.active }
    (b, .ok b)

/-- `BookingSessionViewSet.end`.  The guard rejects non-active bookings.
On an overstay (`actual_end_time > scheduled_end_time`) the handler
computes `overstay_duration = (...).total_seconds() / 60` and
`overstay_fee = (overstay_duration // 15) * 20`, both Python floats, and
then executes `booking.total_cost += overstay_fee`.  But `total_cost` was
loaded from a `DecimalField`, i.e. it is a `decimal.Decimal`, and in
Python `Decimal += float` raises `TypeError`; the request dies with an
unhandled exception (HTTP 500) before `booking.save()`, so the stored row
is unchanged.  Only the no-overstay path completes and saves (the
in-memory mutations made before the raising statement are discarded). -/
def «end» (booking : BookingSession) (now : ℚ) :
    BookingSession × ApiResp BookingSession :=
  if booking.status ≠ BookingStatus.active then
    (booking, .err "Only active bookings can be ended" 400)
  else if booking.scheduled_end_time < now then
    (booking, .crash
      "TypeError: unsupported operand type(s) for +=: 'decimal.Decimal' and 'float'")
  else
    let b1 := { booking with
                actual_end_time := some now
                status := BookingStatus.completed }
    (b1, .ok b1)

/-- `BookingSessionViewSet.cancel`. -/
def cancel (booking : BookingSession) :
    BookingSession × ApiResp BookingSession :=
  if booking.status = BookingStatus.completed ∨
      booking.status = BookingStatus.cancelled then
    (booking, .err "Cannot cancel completed or already cancelled bookings" 400)
  else
    let b := { booking with status := BookingStatus.cancelled }
    (b, .ok b)

/-! ## Dispute data model and resolution (`bookings/models.py`, `views.py`) -/

/-- The `STATUS_CHOICES` of `DisputeReport`. -/
inductive DisputeStatus where
  | pending
  | under_review
  | resolved
  | rejected
deriving DecidableEq, Repr

/-- The `DisputeReport` row. -/
structure DisputeReport where
  id : Nat
  booking : Nat
  reason : String
  description : String
  photo_urls : List String
  status : DisputeStatus
  created_at : ℚ
  resolved_at : Option ℚ
  resolution : Option String
deriving DecidableEq, Repr

/-- Python truthiness of `request.data.get('resolution')`: absent or empty
resolution text is falsy. -/
def falsyText : Option String → Bool
  | none => true
  | some s => s = ""

/-- `DisputeReportViewSet.resolve`: staff-only; requires non-falsy
resolution text; then unconditionally sets `status = 'resolved'`, stores
the text and stamps `resolved_at` — there is no guard on the dispute's
current status. -/
def resolve (is_staff : Bool) (dispute : DisputeReport)
    (resolution : Option String) (now : ℚ) :
    DisputeReport × ApiResp DisputeReport :=
  if ¬ is_staff then
    (dispute, .err "Only staff can resolve disputes" 403)
  else if falsyText resolution then
    (dispute, .err "Resolution text required" 400)
  else
    let d := { dispute with
                status := DisputeStatus.resolved
                resolution := resolution
                resolved_at := some now }
    (d, .ok d)

/-- Payload of a (partial) update request against a dispute.  The
`DisputeReportViewSet` update routes use `DisputeReportSerializer`, whose
`fields = '__all__'` with only `id`, `created_at`, `resolved_at`
read-only — so `status` and `resolution` are client-writable. -/
structure DisputeUpdateRequest where
  booking : Option Nat := none
  reason : Option String := none
  description : Option String := none
  photo_urls : Option (List String) := none
  status : Option DisputeStatus := none
  resolution : Option (Option String) := none
deriving DecidableEq, Repr

/-- The generic `update`/`partial_update` endpoint of
`DisputeReportViewSet`: every writable field present in the request
overwrites the stored value.  The route carries no staff requirement —
`get_queryset` only narrows visibility, so a non-staff user can update
any dispute attached to their own bookings — and there is no guard on the
dispute's current status. -/
def dispute_update (d : DisputeReport) (req : DisputeUpdateRequest) :
    DisputeReport :=
  { d with
    booking := req.booking.getD d.booking
    reason := req.reason.getD d.reason
    description := req.description.getD d.description
    photo_urls := req.photo_urls.getD d.photo_urls
    status := req.status.getD d.status
    resolution := req.resolution.getD d.resolution }

/-! ## Parking spots and proximity search (`parking/models.py`, `views.py`) -/

/-- The `ParkingSpot` row (the fields the proximity and occupancy endpoints
touch, plus representative feature/pricing fields). -/
structure ParkingSpot where
  id : Nat
  owner : Nat
  address : String
  latitude : ℝ
  longitude : ℝ
  spot_type : String
  price_per_hour : ℚ
  has_cctv : Bool
  is_covered : Bool
  has_ev_charging : Bool
  is_24_hours : Bool
  is_occupied : Bool
  is_disabled : Bool
  rating : ℚ
  review_count : Int

/-- Python's `math.radians`. -/
noncomputable def radians (deg : ℝ) : ℝ := deg * (Real.pi / 180)

/-- `parking/views.py::calculate_distance` — the haversine formula with
Earth radius 6371 km, returning meters. -/
noncomputable def calculate_distance (lat1 lon1 lat2 lon2 : ℝ) : ℝ :=
  let rlat1 := radians lat1
  let rlon1 := radians lon1
  let rlat2 := radians lat2
  let rlon2 := radians lon2
  let dlon := rlon2 - rlon1
  let dlat := rlat2 - rlat1
  let a := Real.sin (dlat / 2) ^ 2 +
      Real.cos rlat1 * Real.cos rlat2 * Real.sin (dlon / 2) ^ 2
  let c := 2 * Real.arcsin (Real.sqrt a)
  let km := 6371 * c
  km * 1000

/-- Comparison key of `nearby_spots.sort(key=lambda x: x.distance)`:
order distance-annotated spots by their distance. -/
def byDistance (p q : ParkingSpot × ℝ) : Prop := p.2 ≤ q.2

noncomputable instance : DecidableRel byDistance :=
  fun p q => Real.decidableLE p.2 q.2

/-- A value flowing out of `ParkingSpotViewSet.get_queryset`: a Django
`QuerySet` when no query point was supplied, but a plain Python list of
distance-annotated spots when the `lat`/`lon` query params are present
(the source builds `spots_with_distance`, sorts it, and returns it). -/
inductive SpotCollection where
  | queryset (spots : List ParkingSpot)
  | pylist (spots : List (ParkingSpot × ℝ))

/-- `ParkingSpotViewSet.get_queryset`: apply the optional price and
availability filters; then, when a query point is supplied, annotate every
spot with its haversine distance, sort ascending, and return the result as
a plain Python list instead of a `QuerySet`. -/
noncomputable def get_queryset (max_price : Option ℚ) (available_only : Bool)
    (lat lon : Option ℝ) (spots : List ParkingSpot) : SpotCollection :=
  let queryset :=
    match max_price with
    | some mp => spots.filter (fun s => decide (s.price_per_hour ≤ mp))
    | none => spots
  let queryset :=
    if available_only then
      queryset.filter (fun s => !s.is_occupied && !s.is_disabled)
    else queryset
  match lat, lon with
  | some user_lat, some user_lon =>
      SpotCollection.pylist (List.insertionSort byDistance
        (queryset.map (fun s =>
          (s, calculate_distance user_lat user_lon s.latitude s.longitude))))
  | _, _ => SpotCollection.queryset queryset

/-- The call `.filter(is_occupied=False, is_disabled=False)` that `nearby`
makes on the value returned by `get_queryset`: it is a `QuerySet` method,
and a plain Python list has no `filter` attribute, so on the `pylist`
variant the call raises `AttributeError`. -/
def filter_available : SpotCollection → Except String (List ParkingSpot)
  | .queryset spots =>
      .ok (spots.filter (fun s => !s.is_occupied && !s.is_disabled))
  | .pylist _ =>
      .error "AttributeError: 'list' object has no attribute 'filter'"

/-- `ParkingSpotViewSet.nearby`.  The endpoint rejects requests without
`lat`/`lon` (400), so whenever it proceeds, `get_queryset` — evaluated on
the same request — takes its query-point branch and returns a plain list;
the subsequent `.filter(is_occupied=False, is_disabled=False)` on that
list raises `AttributeError`, reported as an unhandled HTTP 500.  The
annotate / radius-filter / sort pipeline that follows in the source is
therefore unreachable. -/
noncomputable def nearby (lat lon radius : ℝ) (max_price : Option ℚ)
    (available_only : Bool) (spots : List ParkingSpot) :
    ApiResp (List (ParkingSpot × ℝ)) :=
  match filter_available
      (get_queryset max_price available_only (some lat) (some lon) spots) with
  | .error exc => .crash exc
  | .ok available =>
      let nearby_spots :=
        (available.map (fun s =>
          (s, calculate_distance lat lon s.latitude s.longitude))).filter
          (fun p => decide (p.2 ≤ radius))
      .ok (List.insertionSort byDistance nearby_spots)

/-- `ParkingSpotViewSet.toggle_occupancy`: flip `is_occupied`, save, and
report the resulting state. -/
def toggle_occupancy (spot : ParkingSpot) : ParkingSpot × String :=
  let s := { spot with is_occupied := !spot.is_occupied }
  (s, if s.is_occupied then "occupied" else "available")

/-! ## Fixtures used by concrete witnesses and counterexamples -/

/-- A concrete creation request (its `status` field is client noise the
serializer must ignore). -/
def exCreateReq : BookingCreateRequest :=
  { spot_id := 7
    spot_type := "parking_spot"
    scheduled_start_time := -3600
    scheduled_end_time := 0
    duration := 1
    total_cost := 100
    access_code := some "A1"
    status := "completed" }

/-- A concrete booking whose scheduled window ends at time `0`, in a given
status. -/
def exBooking (st : BookingStatus) : BookingSession :=
  { id := 3
    user := 1
    spot_id := 7
    spot_type := "parking_spot"
    booking_time := -7200
    scheduled_start_time := -3600
    actual_start_time := none
    scheduled_end_time := 0
    actual_end_time := none
    duration := 1
    total_cost := 100
    overstay_fee := none
    status := st
    access_code := some "A1" }

/-- A concrete dispute in a given status. -/
def exDispute (st : DisputeStatus) : DisputeReport :=
  { id := 11
    booking := 3
    reason := "overcharge"
    description := "fee too high"
    photo_urls := []
    status := st
    created_at := 0
    resolved_at := none
    resolution := none }

/-! ## C1 — overstay fee on `end` (code bug: the overstay path crashes) -/

/-- C1 (code bug): on every `end` call against an active booking past its
scheduled end, the source computes the overstay fee as a Python float and
then runs `booking.total_cost += overstay_fee` where `total_cost` is a
`decimal.Decimal`; that raises `TypeError`, so the request fails with an
unhandled 500 before `save()` and the stored row is unchanged — the
operation never completes with the updated entity, and no overstay fee is
ever applied. -/
theorem end_overstay_typeerror (b : BookingSession) (now : ℚ)
    (hactive : b.status = BookingStatus.active)
    (hover : b.scheduled_end_time < now) :
    «end» b now =
      (b, ApiResp.crash
        "TypeError: unsupported operand type(s) for +=: 'decimal.Decimal' and 'float'") := by
  simp [«end», hactive, hover]

/-- Witness for C1 at the claim's 16-minute data point: the active
booking whose scheduled end is time 0 and whose total cost is 100, ended
at time 960, crashes instead of acquiring fee 20 and total 120. -/
theorem end_overstay_typeerror_witness :
    «end» (exBooking BookingStatus.active) 960 =
      (exBooking BookingStatus.active, ApiResp.crash
        "TypeError: unsupported operand type(s) for +=: 'decimal.Decimal' and 'float'") :=
  end_overstay_typeerror (exBooking BookingStatus.active) 960 rfl
    (by norm_num [exBooking])

/-! ## C3 — `start` succeeds exactly from `confirmed` -/

/-- C3: `start` on a confirmed booking stamps `actual_start_time = now`
and moves the status to `active`; on any other status it responds with an
error and stores the row unchanged. -/
theorem start_succeeds_iff_confirmed (b : BookingSession) (now : ℚ) :
    (b.status = BookingStatus.confirmed →
      start b now =
        ({ b with actual_start_time := some now
                  status := BookingStatus.active },
          ApiResp.ok { b with actual_start_time := some now
                              status := BookingStatus.active })) ∧
    (b.status ≠ BookingStatus.confirmed →
      start b now =
        (b, ApiResp.err "Only confirmed bookings can be started" 400)) := by
  constructor <;> intro h <;> simp [start, h]

/-- Witness for C3: a confirmed booking starts and becomes active; a
pending one is rejected unchanged. -/
theorem start_succeeds_iff_confirmed_witness :
    start (exBooking BookingStatus.confirmed) 5 =
      ({ exBooking BookingStatus.confirmed with
          actual_start_time := some 5
          status := BookingStatus.active },
        ApiResp.ok { exBooking BookingStatus.confirmed with
          actual_start_time := some 5
          status := BookingStatus.active }) ∧
    start (exBooking BookingStatus.pending) 5 =
      (exBooking BookingStatus.pending,
        ApiResp.err "Only confirmed bookings can be started" 400) :=
  ⟨(start_succeeds_iff_confirmed (exBooking BookingStatus.confirmed) 5).1 rfl,
   (start_succeeds_iff_confirmed (exBooking BookingStatus.pending) 5).2
      (by simp [exBooking])⟩

/-! ## C5 — guard violations: fixed message, no mutation -/

/-- C5 counterexample: calling `start` on a pending booking is rejected
with the fixed message "Only confirmed bookings can be started", which
does not contain the booking's current status string "pending". -/
theorem start_error_omits_current_status :
    (start (exBooking BookingStatus.pending) 5).2 =
      ApiResp.err "Only confirmed bookings can be started" 400 ∧
    (exBooking BookingStatus.pending).status.db_value = "pending" ∧
    ¬ List.IsInfix "pending".toList
        "Only confirmed bookings can be started".toList := by
  refine ⟨?_, rfl, by decide⟩
  simp [start, exBooking]

/-- C5 amended: a lifecycle call whose status guard fails responds with
that operation's fixed error message (naming the required status, not the
booking's current status) and stores the row unchanged. -/
theorem guard_errors_fixed_message_no_mutation (b : BookingSession)
    (now : ℚ) :
    (b.status ≠ BookingStatus.confirmed →
      start b now =
        (b, ApiResp.err "Only confirmed bookings can be started" 400)) ∧
    (b.status ≠ BookingStatus.active →
      «end» b now =
        (b, ApiResp.err "Only active bookings can be ended" 400)) ∧
    (b.status = BookingStatus.completed ∨ b.status = BookingStatus.cancelled →
      cancel b =
        (b, ApiResp.err "Cannot cancel completed or already cancelled bookings"
          400)) := by
  refine ⟨fun h => by simp [start, h], fun h => by simp [«end», h],
    fun h => by simp [cancel, h]⟩

/-- Witness for the amended C5 on concrete bookings in the wrong status
for each of the three guarded operations. -/
theorem guard_errors_fixed_message_no_mutation_witness :
    start (exBooking BookingStatus.active) 5 =
      (exBooking BookingStatus.active,
        ApiResp.err "Only confirmed bookings can be started" 400) ∧
    «end» (exBooking BookingStatus.confirmed) 5 =
      (exBooking BookingStatus.confirmed,
        ApiResp.err "Only active bookings can be ended" 400) ∧
    cancel (exBooking BookingStatus.completed) =
      (exBooking BookingStatus.completed,
        ApiResp.err "Cannot cancel completed or already cancelled bookings"
          400) :=
  ⟨(guard_errors_fixed_message_no_mutation (exBooking BookingStatus.active)
      5).1 (by simp [exBooking]),
   (guard_errors_fixed_message_no_mutation (exBooking BookingStatus.confirmed)
      5).2.1 (by simp [exBooking]),
   (guard_errors_fixed_message_no_mutation (exBooking BookingStatus.completed)
      5).2.2 (by simp [exBooking])⟩

/-! ## C6 — `cancel` is idempotent-rejecting -/

/-- C6: on a booking that is neither completed nor cancelled, the first
`cancel` succeeds and sets the status to `cancelled`; an immediately
repeated `cancel` on the stored row is rejected and the status stays
`cancelled`. -/
theorem cancel_idempotent_rejecting (b : BookingSession)
    (h : ¬ (b.status = BookingStatus.completed ∨
            b.status = BookingStatus.cancelled)) :
    cancel b = ({ b with status := BookingStatus.cancelled },
                ApiResp.ok { b with status := BookingStatus.cancelled }) ∧
    cancel (cancel b).1 =
      ((cancel b).1,
        ApiResp.err "Cannot cancel completed or already cancelled bookings"
          400) ∧
    (cancel (cancel b).1).1.status = BookingStatus.cancelled := by
  have h1 : cancel b = ({ b with status := BookingStatus.cancelled },
      ApiResp.ok { b with status := BookingStatus.cancelled }) := by
    simp [cancel, h]
  refine ⟨h1, ?_, ?_⟩ <;> rw [h1] <;> simp [cancel]

/-- Witness for C6 on a concrete pending booking. -/
theorem cancel_idempotent_rejecting_witness :
    cancel (exBooking BookingStatus.pending) =
      ({ exBooking BookingStatus.pending with
          status := BookingStatus.cancelled },
        ApiResp.ok { exBooking BookingStatus.pending with
          status := BookingStatus.cancelled }) ∧
    cancel (cancel (exBooking BookingStatus.pending)).1 =
      ((cancel (exBooking BookingStatus.pending)).1,
        ApiResp.err "Cannot cancel completed or already cancelled bookings"
          400) ∧
    (cancel (cancel (exBooking BookingStatus.pending)).1).1.status =
      BookingStatus.cancelled :=
  cancel_idempotent_rejecting (exBooking BookingStatus.pending)
    (by simp [exBooking])

/-! ## C9 — `create` forces `confirmed` and null derived fields -/

/-- C9: every booking produced by the create serializer has status
`confirmed` and null `actual_start_time`, `actual_end_time` and
`overstay_fee`, and the `status` value supplied by the client is ignored
entirely. -/
theorem create_sets_confirmed_and_nulls (req : BookingCreateRequest)
    (user : Nat) (now : ℚ) (id : Nat) :
    (create req user now id).status = BookingStatus.confirmed ∧
    (create req user now id).actual_start_time = none ∧
    (create req user now id).actual_end_time = none ∧
    (create req user now id).overstay_fee = none ∧
    ∀ s : String, create { req with status := s } user now id =
      create req user now id :=
  ⟨rfl, rfl, rfl, rfl, fun _ => rfl⟩

/-! ## C4 — actual-time / status invariant -/

/-- Bookings reachable through the lifecycle operations `create`, `start`,
`end`, `cancel` (the generic `update` deliberately excluded).  The Boolean
index records whether the booking has ever been started, i.e. whether its
status has reached `active`. -/
inductive ReachableH : Bool → BookingSession → Prop where
  | created (req : BookingCreateRequest) (user : Nat) (now : ℚ) (id : Nat) :
      ReachableH false (create req user now id)
  | step_start {h : Bool} {b b' : BookingSession} {t : ℚ} :
      ReachableH h b → (start b t).2 = ApiResp.ok b' → ReachableH true b'
  | step_end {h : Bool} {b b' : BookingSession} {t : ℚ} :
      ReachableH h b → («end» b t).2 = ApiResp.ok b' → ReachableH h b'
  | step_cancel {h : Bool} {b b' : BookingSession} :
      ReachableH h b → (cancel b).2 = ApiResp.ok b' → ReachableH h b'

/-- C4 amended: for bookings reachable through `create`, `start`, `end`
and `cancel`, `actual_start_time` is non-null iff the status has ever
reached `active`, and `actual_end_time` is non-null iff the status is
`completed`; moreover a currently active or completed booking always has
`actual_start_time` set.  (The generic `update` endpoint is excluded: it
can overwrite any of these fields with no guard.) -/
theorem lifecycle_actual_time_invariant {h : Bool} {b : BookingSession}
    (hr : ReachableH h b) :
    (b.actual_start_time ≠ none ↔ h = true) ∧
    (b.actual_end_time ≠ none ↔ b.status = BookingStatus.completed) ∧
    ((b.status = BookingStatus.active ∨ b.status = BookingStatus.completed) →
      b.actual_start_time ≠ none) := by
  induction hr with
  | created req user now id => simp [create]
  | @step_start h b b' t hr hok ih =>
      obtain ⟨ih1, ih2, ih3⟩ := ih
      by_cases hc : b.status = BookingStatus.confirmed
      · have hb' : b' = { b with actual_start_time := some t
                                 status := BookingStatus.active } := by
          simpa [start, hc] using hok.symm
        subst hb'
        have hend : b.actual_end_time = none := by
          by_contra hne
          rw [hc] at ih2
          simpa using ih2.mp hne
        refine ⟨by simp, by simp [hend], by simp⟩
      · simp [start, hc] at hok
  | @step_end h b b' t hr hok ih =>
      obtain ⟨ih1, ih2, ih3⟩ := ih
      by_cases hc : b.status = BookingStatus.active
      · have hstart : b.actual_start_time ≠ none := ih3 (Or.inl hc)
        by_cases ht : b.scheduled_end_time < t
        · simp [«end», hc, ht] at hok
        · have hb' : b' =
              { b with actual_end_time := some t
                       status := BookingStatus.completed } := by
            simpa [«end», hc, ht] using hok.symm
          subst hb'
          exact ⟨by simpa using ih1, by simp, by simpa using hstart⟩
      · simp [«end», hc] at hok
  | @step_cancel h b b' hr hok ih =>
      obtain ⟨ih1, ih2, ih3⟩ := ih
      by_cases hc : b.status = BookingStatus.completed ∨
          b.status = BookingStatus.cancelled
      · simp [cancel, hc] at hok
      · have hb' : b' = { b with status := BookingStatus.cancelled } := by
          simpa [cancel, hc] using hok.symm
        subst hb'
        have hend : b.actual_end_time = none := by
          by_contra hne
          exact hc (Or.inl (ih2.mp hne))
        exact ⟨by simpa using ih1, by simp [hend], by simp⟩

/-- Witness for the amended C4: the invariant instantiated at a freshly
created booking. -/
theorem lifecycle_actual_time_invariant_witness :
    ((create exCreateReq 1 0 3).actual_start_time ≠ none ↔ false = true) ∧
    ((create exCreateReq 1 0 3).actual_end_time ≠ none ↔
      (create exCreateReq 1 0 3).status = BookingStatus.completed) ∧
    (((create exCreateReq 1 0 3).status = BookingStatus.active ∨
        (create exCreateReq 1 0 3).status = BookingStatus.completed) →
      (create exCreateReq 1 0 3).actual_start_time ≠ none) :=
  lifecycle_actual_time_invariant (ReachableH.created exCreateReq 1 0 3)

/-- C4 counterexample: the claim as stated also admits the generic
`update` operation, and `update` can set `actual_end_time` on a booking
that is still `confirmed`, so "actual_end_time is non-null iff status is
completed" fails on a reachable booking. -/
theorem update_breaks_actual_end_invariant :
    (update (create exCreateReq 1 0 3)
        { actual_end_time := some (some 50) }).actual_end_time = some 50 ∧
    (update (create exCreateReq 1 0 3)
        { actual_end_time := some (some 50) }).status =
      BookingStatus.confirmed ∧
    ¬ ((update (create exCreateReq 1 0 3)
          { actual_end_time := some (some 50) }).actual_end_time ≠ none ↔
        (update (create exCreateReq 1 0 3)
            { actual_end_time := some (some 50) }).status =
          BookingStatus.completed) := by
  refine ⟨rfl, rfl, fun hiff => ?_⟩
  have h2 := hiff.mp (by simp [update, create])
  simp [update, create] at h2

/-! ## C7 — dispute terminal statuses -/

/-- C7 counterexample: terminal dispute statuses are not protected, and
disputes are not mutated only by staff via `resolve`.  A staff `resolve`
call on a dispute already in the terminal status `rejected` changes its
status to `resolved` (the handler never checks the current status), and
the generic update — which requires no staff caller — moves a dispute in
the terminal status `resolved` back to `pending`. -/
theorem dispute_terminal_status_not_protected :
    (exDispute DisputeStatus.rejected).status = DisputeStatus.rejected ∧
    (resolve true (exDispute DisputeStatus.rejected)
        (some "refund issued") 9).1.status = DisputeStatus.resolved ∧
    (exDispute DisputeStatus.resolved).status = DisputeStatus.resolved ∧
    (dispute_update (exDispute DisputeStatus.resolved)
        { status := some DisputeStatus.pending }).status =
      DisputeStatus.pending ∧
    DisputeStatus.resolved ≠ DisputeStatus.rejected ∧
    DisputeStatus.pending ≠ DisputeStatus.resolved := by
  refine ⟨rfl, ?_, rfl, rfl, by decide, by decide⟩
  simp [resolve, falsyText, exDispute]

/-- C7 amended: terminal dispute statuses are not protected — `resolve`
has no status guard (a rejected dispute transitions to resolved) and the
staff-free generic update can change the status of a resolved or rejected
dispute.  What does hold of `resolve` itself: it mutates a dispute only
when the caller is staff (a non-staff call is rejected with no mutation),
and whenever it succeeds it stores exactly the row with status
`resolved`, the resolution text and the `resolved_at` stamp — so a
dispute can never leave `resolved` through `resolve`. -/
theorem resolve_staff_only_sets_resolved (is_staff : Bool)
    (d : DisputeReport) (r : Option String) (now : ℚ) :
    (∀ d', (resolve is_staff d r now).2 = ApiResp.ok d' →
      is_staff = true ∧ d'.status = DisputeStatus.resolved ∧
      (resolve is_staff d r now).1 = d') ∧
    (is_staff = false →
      resolve is_staff d r now =
        (d, ApiResp.err "Only staff can resolve disputes" 403)) := by
  constructor
  · intro d' hok
    cases is_staff with
    | false => simp [resolve] at hok
    | true =>
        by_cases hres : falsyText r
        · simp [resolve, hres] at hok
        · have hd' : d' = { d with status := DisputeStatus.resolved
                                   resolution := r
                                   resolved_at := some now } := by
            simpa [resolve, hres] using hok.symm
          subst hd'
          exact ⟨rfl, rfl, by simp [resolve, hres]⟩
  · intro hstaff
    subst hstaff
    simp [resolve]

/-- Witness for the amended C7 on a concrete pending dispute resolved by
staff, and a non-staff attempt left unapplied. -/
theorem resolve_staff_only_sets_resolved_witness :
    (true = true ∧
      ({ exDispute DisputeStatus.pending with
          status := DisputeStatus.resolved
          resolution := some "ok"
          resolved_at := some 1 } : DisputeReport).status =
        DisputeStatus.resolved ∧
      (resolve true (exDispute DisputeStatus.pending) (some "ok") 1).1 =
        { exDispute DisputeStatus.pending with
          status := DisputeStatus.resolved
          resolution := some "ok"
          resolved_at := some 1 }) ∧
    resolve false (exDispute DisputeStatus.pending) (some "ok") 1 =
      (exDispute DisputeStatus.pending,
        ApiResp.err "Only staff can resolve disputes" 403) :=
  ⟨(resolve_staff_only_sets_resolved true (exDispute DisputeStatus.pending)
      (some "ok") 1).1 _ (by simp [resolve, falsyText]),
   (resolve_staff_only_sets_resolved false (exDispute DisputeStatus.pending)
      (some "ok") 1).2 rfl⟩

/-! ## C10 — `toggle_occupancy` is an involution -/

/-- C10: each `toggle_occupancy` call flips exactly the `is_occupied`
flag and reports the resulting state; two consecutive calls restore the
spot to its original value, every other field included. -/
theorem toggle_occupancy_involution (spot : ParkingSpot) :
    (toggle_occupancy spot).1 =
      { spot with is_occupied := !spot.is_occupied } ∧
    (toggle_occupancy spot).2 =
      (if !spot.is_occupied then "occupied" else "available") ∧
    (toggle_occupancy (toggle_occupancy spot).1).1 = spot := by
  refine ⟨rfl, rfl, ?_⟩
  simp [toggle_occupancy]

/-! ## C2 — proximity search (code bug: every invocation crashes) -/

/-- C2 (code bug): every `nearby` invocation that passes the mandatory
query-point guard crashes.  `get_queryset` has returned a plain Python
list (the `lat`/`lon` params are present on any request that reaches this
point), and the endpoint's `.filter` call on that list raises
`AttributeError`, so the endpoint always answers 500 and never returns a
sorted, radius-bounded list. -/
theorem nearby_always_crashes (lat lon radius : ℝ) (max_price : Option ℚ)
    (available_only : Bool) (spots : List ParkingSpot) :
    nearby lat lon radius max_price available_only spots =
      ApiResp.crash "AttributeError: 'list' object has no attribute 'filter'" :=
  rfl

/-! ## C8 — haversine distance at the spec's example pair -/

/-- Normal form of the distance between the example query point
(28.6139, 77.2090) and candidate (28.5285, 77.2182): all four angles as
rational multiples of pi. -/
lemma calculate_distance_ex_eq :
    calculate_distance 28.6139 77.2090 28.5285 77.2182 =
      12742000 * Real.arcsin (Real.sqrt
        (Real.sin (427 / 1800000 * Real.pi) ^ 2 +
          Real.cos (286139 / 1800000 * Real.pi) *
            Real.cos (285285 / 1800000 * Real.pi) *
            Real.sin (23 / 900000 * Real.pi) ^ 2)) := by
  simp only [calculate_distance, radians]
  rw [show ((28.5285 : ℝ) * (Real.pi / 180) - 28.6139 * (Real.pi / 180)) / 2
        = -(427 / 1800000 * Real.pi) by ring]
  rw [Real.sin_neg, neg_sq]
  rw [show ((77.2182 : ℝ) * (Real.pi / 180) - 77.2090 * (Real.pi / 180)) / 2
        = 23 / 900000 * Real.pi by ring]
  rw [show (28.6139 : ℝ) * (Real.pi / 180) = 286139 / 1800000 * Real.pi by
        ring]
  rw [show (28.5285 : ℝ) * (Real.pi / 180) = 285285 / 1800000 * Real.pi by
        ring]
  ring


set_option maxHeartbeats 2000000 in
/-- Rigorous enclosure of the example distance: it lies strictly between
9500 and 9600 meters (the true value is about 9538.4 m). -/
lemma distance_ex_bounds :
    9500 < calculate_distance 28.6139 77.2090 28.5285 77.2182 ∧
    calculate_distance 28.6139 77.2090 28.5285 77.2182 < 9600 := by
  have hpi_lo : (3141592 / 10 ^ 6 : ℝ) < Real.pi := by
    have h := Real.pi_gt_d6
    norm_num at h ⊢
    linarith
  have hpi_hi : Real.pi < (3141593 / 10 ^ 6 : ℝ) := by
    have h := Real.pi_lt_d6
    norm_num at h ⊢
    linarith
  rw [calculate_distance_ex_eq]
  set x1 : ℝ := 427 / 1800000 * Real.pi with hx1def
  set x2 : ℝ := 23 / 900000 * Real.pi with hx2def
  set l1 : ℝ := 286139 / 1800000 * Real.pi with hl1def
  set l2 : ℝ := 285285 / 1800000 * Real.pi with hl2def
  -- rational enclosures for the four radian arguments
  have hx1_lo : (745255 / 10 ^ 9 : ℝ) ≤ x1 := by rw [hx1def]; linarith
  have hx1_hi : x1 ≤ (745256 / 10 ^ 9 : ℝ) := by rw [hx1def]; linarith
  have hx1_pos : (0 : ℝ) < x1 := by linarith
  have hx2_lo : (802851 / 10 ^ 10 : ℝ) ≤ x2 := by rw [hx2def]; linarith
  have hx2_hi : x2 ≤ (802852 / 10 ^ 10 : ℝ) := by rw [hx2def]; linarith
  have hx2_pos : (0 : ℝ) < x2 := by linarith
  have hl1_lo : (0 : ℝ) ≤ l1 := by rw [hl1def]; positivity
  have hl1_hi : l1 ≤ (4995 / 10 ^ 4 : ℝ) := by rw [hl1def]; linarith
  have hl2_lo : (0 : ℝ) ≤ l2 := by rw [hl2def]; positivity
  have hl2_hi : l2 ≤ (4995 / 10 ^ 4 : ℝ) := by rw [hl2def]; linarith
  -- sine enclosures at the two half-angle arguments
  have hsin1_hi : Real.sin x1 ≤ (745256 / 10 ^ 9 : ℝ) :=
    le_trans (Real.sin_lt hx1_pos).le hx1_hi
  have hsin1_lo : (7452548 / 10 ^ 10 : ℝ) ≤ Real.sin x1 := by
    have hgt := Real.sin_gt_sub_cube hx1_pos (le_trans hx1_hi (by norm_num))
    have hcube : x1 ^ 3 ≤ (745256 / 10 ^ 9 : ℝ) ^ 3 :=
      pow_le_pow_left₀ hx1_pos.le hx1_hi 3
    norm_num at hcube
    linarith
  have hsin1_nonneg : (0 : ℝ) ≤ Real.sin x1 :=
    le_trans (by norm_num) hsin1_lo
  have hsin2_hi : Real.sin x2 ≤ (802852 / 10 ^ 10 : ℝ) :=
    le_trans (Real.sin_lt hx2_pos).le hx2_hi
  have hsin2_lo : (80285 / 10 ^ 9 : ℝ) ≤ Real.sin x2 := by
    have hgt := Real.sin_gt_sub_cube hx2_pos (le_trans hx2_hi (by norm_num))
    have hcube : x2 ^ 3 ≤ (802852 / 10 ^ 10 : ℝ) ^ 3 :=
      pow_le_pow_left₀ hx2_pos.le hx2_hi 3
    norm_num at hcube
    linarith
  have hsin2_nonneg : (0 : ℝ) ≤ Real.sin x2 :=
    le_trans (by norm_num) hsin2_lo
  -- cosine enclosures at the two latitudes
  have hcos1_lo : (7 / 8 : ℝ) ≤ Real.cos l1 := by
    have hq := Real.one_sub_sq_div_two_le_cos (x := l1)
    have hsq : l1 ^ 2 ≤ (4995 / 10 ^ 4 : ℝ) ^ 2 :=
      pow_le_pow_left₀ hl1_lo hl1_hi 2
    norm_num at hsq
    linarith
  have hcos2_lo : (7 / 8 : ℝ) ≤ Real.cos l2 := by
    have hq := Real.one_sub_sq_div_two_le_cos (x := l2)
    have hsq : l2 ^ 2 ≤ (4995 / 10 ^ 4 : ℝ) ^ 2 :=
      pow_le_pow_left₀ hl2_lo hl2_hi 2
    norm_num at hsq
    linarith
  have hcos1_hi : Real.cos l1 ≤ 1 := Real.cos_le_one l1
  have hcos2_hi : Real.cos l2 ≤ 1 := Real.cos_le_one l2
  -- enclosure for the haversine argument `a`
  set A : ℝ := Real.sin x1 ^ 2 +
    Real.cos l1 * Real.cos l2 * Real.sin x2 ^ 2 with hAdef
  have hsq1_lo : (7452548 / 10 ^ 10 : ℝ) ^ 2 ≤ Real.sin x1 ^ 2 :=
    pow_le_pow_left₀ (by norm_num) hsin1_lo 2
  have hsq1_hi : Real.sin x1 ^ 2 ≤ (745256 / 10 ^ 9 : ℝ) ^ 2 :=
    pow_le_pow_left₀ hsin1_nonneg hsin1_hi 2
  have hsq2_lo : (80285 / 10 ^ 9 : ℝ) ^ 2 ≤ Real.sin x2 ^ 2 :=
    pow_le_pow_left₀ (by norm_num) hsin2_lo 2
  have hsq2_hi : Real.sin x2 ^ 2 ≤ (802852 / 10 ^ 10 : ℝ) ^ 2 :=
    pow_le_pow_left₀ hsin2_nonneg hsin2_hi 2
  have hcosprod_lo : (7 / 8 : ℝ) * (7 / 8) ≤ Real.cos l1 * Real.cos l2 :=
    mul_le_mul hcos1_lo hcos2_lo (by norm_num)
      (le_trans (by norm_num) hcos1_lo)
  have hcosprod_hi : Real.cos l1 * Real.cos l2 ≤ 1 :=
    mul_le_one₀ hcos1_hi (le_trans (by norm_num) hcos2_lo) hcos2_hi
  have hA_lo : (56033 / 10 ^ 11 : ℝ) ≤ A := by
    have hterm : (7 / 8 : ℝ) * (7 / 8) * ((80285 / 10 ^ 9 : ℝ) ^ 2) ≤
        Real.cos l1 * Real.cos l2 * Real.sin x2 ^ 2 :=
      mul_le_mul hcosprod_lo hsq2_lo (by positivity)
        (le_trans (by norm_num) hcosprod_lo)
    norm_num at hterm hsq1_lo
    rw [hAdef]
    linarith
  have hA_hi : A ≤ (56186 / 10 ^ 11 : ℝ) := by
    have hterm : Real.cos l1 * Real.cos l2 * Real.sin x2 ^ 2 ≤
        Real.sin x2 ^ 2 :=
      mul_le_of_le_one_left (by positivity) hcosprod_hi
    norm_num at hsq1_hi hsq2_hi
    rw [hAdef]
    linarith
  -- square-root enclosure
  have hsqA_lo : (74855 / 10 ^ 8 : ℝ) ≤ Real.sqrt A :=
    (Real.le_sqrt' (by norm_num)).mpr
      (le_trans (by norm_num) hA_lo)
  have hsqA_hi : Real.sqrt A ≤ (74958 / 10 ^ 8 : ℝ) :=
    (Real.sqrt_le_left (by norm_num)).mpr
      (le_trans hA_hi (by norm_num))
  -- arcsine enclosure
  have hpi2 : (157 / 100 : ℝ) < Real.pi / 2 := by linarith
  have harc_lo : (74855 / 10 ^ 8 : ℝ) < Real.arcsin (Real.sqrt A) := by
    rw [Real.lt_arcsin_iff_sin_lt'
        (Set.mem_Ico.mpr ⟨by linarith, by linarith⟩)]
    exact lt_of_lt_of_le (Real.sin_lt (by norm_num)) hsqA_lo
  have harc_hi : Real.arcsin (Real.sqrt A) < (7496 / 10 ^ 7 : ℝ) := by
    rw [Real.arcsin_lt_iff_lt_sin'
        (Set.mem_Ioc.mpr ⟨by linarith, by linarith⟩)]
    have hs := Real.sin_gt_sub_cube (x := (7496 / 10 ^ 7 : ℝ))
      (by norm_num) (by norm_num)
    norm_num at hs
    linarith
  constructor <;> linarith

/-- C8 counterexample: the distance between (28.6139, 77.2090) and
(28.5285, 77.2182) computed by `calculate_distance` is below 9600 meters,
so it does not lie between 9600 and 9700 meters as claimed. -/
theorem distance_example_not_between_9600_9700 :
    ¬ (9600 ≤ calculate_distance 28.6139 77.2090 28.5285 77.2182 ∧
        calculate_distance 28.6139 77.2090 28.5285 77.2182 ≤ 9700) :=
  fun hc => absurd distance_ex_bounds.2 (not_lt.mpr hc.1)

/-- C8 amended: the distance function applied to the query point
(28.6139, 77.2090) and the candidate point (28.5285, 77.2182) returns a
value between 9,500 and 9,600 meters. -/
theorem distance_example_between_9500_9600 :
    9500 < calculate_distance 28.6139 77.2090 28.5285 77.2182 ∧
    calculate_distance 28.6139 77.2090 28.5285 77.2182 < 9600 :=
  distance_ex_bounds
